import Mathlib

/-!
Verification of the tlilcoatl interpreter (src/main.py), a small Lisp-family
evaluator: tokenizer, reader, environment chain, and recursive evaluator.

Modelling conventions, matching the Python source:
- Python values (which double as expressions) are the inductive `Val`:
  `int`/`float` are the two numeric kinds (floats are modelled as exact
  rationals; only exactly-representable values appear in any claim),
  `str` is a Symbol, `list` is a List, `bool`/`pynone` are the host booleans
  and `None`, `closure` is class `Procedure`, `builtin` a table procedure.
- Environments are mutable objects aliased by closures, so they live in an
  explicit `Store` of frames addressed by index; a frame is a table plus an
  optional outer reference (`Env.__init__`, lines 51-58).
- Host exceptions are the error kinds of `Err`: the reader's two explicit
  SyntaxError raises, the IndexError / ValueError / TypeError /
  ZeroDivisionError crash sites, and the AttributeError raised by
  `None.find` when an environment chain is exhausted (`unboundVariable`).
- Evaluation is fuel-indexed (the source recursion is unbounded);
  `outOfFuel` is a model artifact, as is `invalidEnvRef` (a dangling frame
  index, never produced: Python aliases environment objects directly).
-/

namespace Tlil

/-- The built-in procedures of `standard_env` (line 17-49) that some claim
touches; the math-module bindings and the remaining operator-table entries
are omitted here because no claim below exercises them. -/
inductive BOp
  | begin
  | div
  | cons
  | list
deriving DecidableEq, Repr

/-- A host value of the interpreter.  Expressions and values share this type,
exactly as in the Python source (line 10-15). -/
inductive Val
  | int (n : Int)
  | float (q : ℚ)
  | str (s : String)
  | list (l : List Val)
  | bool (b : Bool)
  | pynone
  | closure (parms : Val) (body : Val) (envRef : Nat)
  | builtin (b : BOp)
deriving Repr

/-- Error kinds: the reader's two explicit SyntaxError raises, the host
exceptions the code can crash with, and two model artifacts. -/
inductive Err
  | unexpectedEOF        -- raise SyntaxError('unexpected EOF'), line 80
  | unexpectedCloseParen -- raise SyntaxError('unexpected )'), line 89
  | unboundVariable      -- AttributeError from None.find: chain exhausted, line 58
  | hostIndexError       -- IndexError: empty-list indexing (lines 84, 109; begin on ())
  | hostValueError       -- ValueError: tuple unpacking with the wrong length
  | hostTypeError        -- TypeError: unhashable key / non-callable / bad operand
  | zeroDivision         -- ZeroDivisionError from op.truediv
  | invalidEnvRef        -- model artifact: dangling frame index (never produced)
  | outOfFuel            -- model artifact: fuel exhausted
deriving DecidableEq, Repr

/-! ## Tokenizer (lines 69-71) -/

/-- `tokenize` walks the characters once: parentheses are always isolated
single-character tokens, whitespace separates atoms.  This is exactly the
source's replace-parens-with-padded-parens-then-split-on-whitespace. -/
def tokenizeAux : List Char → List Char → List String
  | [], buf => if buf.isEmpty then [] else [String.mk buf.reverse]
  | c :: cs, buf =>
    if c = '(' ∨ c = ')' then
      (if buf.isEmpty then [] else [String.mk buf.reverse]) ++
        [String.mk [c]] ++ tokenizeAux cs []
    else if c.isWhitespace then
      (if buf.isEmpty then [] else [String.mk buf.reverse]) ++ tokenizeAux cs []
    else
      tokenizeAux cs (c :: buf)

/-- Convert a string of characters into a list of tokens (line 69-71). -/
def tokenize (chars : String) : List String :=
  tokenizeAux chars.toList []

/-! ## Atoms (lines 93-99) -/

/-- Value of a digit run, most significant first. -/
def digitsVal (cs : List Char) : Nat :=
  cs.foldl (fun a c => 10 * a + (c.toNat - 48)) 0

/-- Host `int(token)` on a whitespace-free token: optional sign then digits.
(Underscored literals of the host parser are not modelled; no token of any
claim contains one.) -/
def parseInt? (s : String) : Option Int :=
  match s.toList with
  | '+' :: r => if !r.isEmpty && r.all Char.isDigit then some (digitsVal r) else none
  | '-' :: r => if !r.isEmpty && r.all Char.isDigit then some (-(digitsVal r : Int)) else none
  | r => if !r.isEmpty && r.all Char.isDigit then some (digitsVal r) else none

/-- Split a character list at the first exponent marker. -/
def splitAtE : List Char → List Char × Option (List Char)
  | [] => ([], none)
  | c :: r =>
    if c = 'e' ∨ c = 'E' then ([], some r)
    else
      let (m, e) := splitAtE r
      (c :: m, e)

/-- Unsigned decimal mantissa: digits, optionally a point with digits on at
least one side. -/
def parseUnsignedDec? (cs : List Char) : Option ℚ :=
  let ip := cs.takeWhile Char.isDigit
  match cs.dropWhile Char.isDigit with
  | [] => if ip.isEmpty then none else some (digitsVal ip : ℚ)
  | '.' :: fp =>
    if fp.all Char.isDigit && (!ip.isEmpty || !fp.isEmpty) then
      some ((digitsVal ip : ℚ) + (digitsVal fp : ℚ) / (10 ^ fp.length : ℚ))
    else none
  | _ => none

/-- Host `float(token)` for plain decimal forms (sign, digits, optional
fraction, optional exponent), modelled as an exact rational.  Special host
spellings (inf, nan, underscores) are not modelled; no claim involves a
float literal at all. -/
def parseFloat? (s : String) : Option ℚ :=
  let cs := s.toList
  let (sgn, cs) : ℚ × List Char :=
    match cs with
    | '+' :: r => (1, r)
    | '-' :: r => (-1, r)
    | r => (1, r)
  match splitAtE cs with
  | (mant, none) => (parseUnsignedDec? mant).map (fun m => sgn * m)
  | (mant, some ecs) =>
    let (esgn, ecs) : Int × List Char :=
      match ecs with
      | '+' :: r => (1, r)
      | '-' :: r => (-1, r)
      | r => (1, r)
    if !ecs.isEmpty && ecs.all Char.isDigit then
      (parseUnsignedDec? mant).map
        (fun m => sgn * m * (10 : ℚ) ^ (esgn * (digitsVal ecs : Int)))
    else none

/-- Numbers become numbers; every other token is a symbol (lines 93-99):
try `int`, then `float`, else Symbol. -/
def atom (token : String) : Val :=
  match parseInt? token with
  | some n => .int n
  | none =>
    match parseFloat? token with
    | some q => .float q
    | none => .str token

/-! ## Reader (lines 77-91) -/

mutual

/-- `read_from_tokens` (lines 77-91), with the consumed token list threaded
explicitly instead of mutated in place.  Fuel only pads the recursion; the
caller supplies more than the token count, so `outOfFuel` never surfaces. -/
def readFromTokens : Nat → List String → Except Err (Val × List String)
  | 0, _ => .error .outOfFuel
  | f + 1, tokens =>
    match tokens with
    | [] => .error .unexpectedEOF            -- line 79-80
    | token :: rest =>
      if token = "(" then
        match readListLoop f rest with
        | .error e => .error e
        | .ok (l, rest') => .ok (.list l, rest')
      else if token = ")" then .error .unexpectedCloseParen  -- line 88-89
      else .ok (atom token, rest)

/-- The while-loop of the `(` branch: peek at `tokens[0]` — an IndexError on
an exhausted list, the unbalanced-input crash — read one sub-expression
otherwise, stop by popping the `)`. -/
def readListLoop : Nat → List String → Except Err (List Val × List String)
  | 0, _ => .error .outOfFuel
  | f + 1, tokens =>
    match tokens with
    | [] => .error .hostIndexError            -- while tokens[0] != ')' on []
    | t :: rest =>
      if t = ")" then .ok ([], rest)          -- pop off ')', line 86
      else
        match readFromTokens f tokens with
        | .error e => .error e
        | .ok (e, rest') =>
          match readListLoop f rest' with
          | .error e => .error e
          | .ok (l, rest'') => .ok (e :: l, rest'')

end

/-- `parse` (lines 73-75): read one expression from a string; tokens left
over after the first complete expression are discarded by the caller. -/
def parse (program : String) : Except Err Val :=
  let toks := tokenize program
  match readFromTokens (2 * toks.length + 2) toks with
  | .error e => .error e
  | .ok (e, _) => .ok e

/-! ## Environment chain (lines 51-58) -/

/-- One environment object: a dict of bindings plus the outer reference.
Later bindings are prepended and lookup takes the first match, which is
dict overwrite semantics.  Only string keys are modelled: the host admits
other hashable keys (ints via zip on a non-symbol parameter list), but a
Symbol lookup, the only read the interpreter performs, can never reach
them. -/
structure EnvFrame where
  table : List (String × Val)
  outer : Option Nat
deriving Repr

abbrev Store := List EnvFrame

def tblGet : List (String × Val) → String → Option Val
  | [], _ => none
  | (k, v) :: t, s => if k = s then some v else tblGet t s

def tblHas (t : List (String × Val)) (s : String) : Bool :=
  (tblGet t s).isSome

def getFrame (σ : Store) (i : Nat) : Option EnvFrame :=
  σ[i]?

/-- `Env.find` (lines 56-58): the innermost frame where the name appears.
When the chain is exhausted the source evaluates `None.find(var)`, an
AttributeError; that unique crash is the unbound-variable failure and is
modelled as `Err.unboundVariable`. -/
def findAux (σ : Store) : Nat → Nat → String → Except Err Nat
  | 0, _, _ => .error .outOfFuel
  | f + 1, envId, s =>
    match getFrame σ envId with
    | none => .error .invalidEnvRef
    | some fr =>
      if tblHas fr.table s then .ok envId
      else
        match fr.outer with
        | none => .error .unboundVariable     -- self.outer is None: None.find
        | some o => findAux σ f o s

/-- `find` with enough fuel for any chain the interpreter can build (outer
references always point at strictly earlier frames, so a chain is no longer
than the store). -/
def findChain (σ : Store) (envId : Nat) (s : String) : Except Err Nat :=
  findAux σ (σ.length + 1) envId s

/-- `env.find(x)[x]` (line 104). -/
def lookupVar (σ : Store) (envId : Nat) (s : String) : Except Err Val :=
  match findChain σ envId s with
  | .error e => .error e
  | .ok i =>
    match getFrame σ i with
    | none => .error .invalidEnvRef
    | some fr =>
      match tblGet fr.table s with
      | some v => .ok v
      | none => .error .invalidEnvRef

/-- `env[symbol] = value` on the innermost frame (`define`, line 121).
A list symbol is an unhashable dict key (TypeError); any other non-string
symbol stores under a key a Symbol lookup can never reach, so the table is
observably unchanged. -/
def defineVar (σ : Store) (envId : Nat) (sym : Val) (v : Val) :
    Except Err (Val × Store) :=
  match sym with
  | .str s =>
    match getFrame σ envId with
    | none => .error .invalidEnvRef
    | some fr => .ok (.pynone, σ.set envId ⟨(s, v) :: fr.table, fr.outer⟩)
  | .list _ => .error .hostTypeError
  | _ => .ok (.pynone, σ)

/-- `env.find(symbol)[symbol] = value` (`set!`, line 124).  A list symbol is
unhashable (TypeError).  For another non-string symbol this model exhausts
the chain, because its tables never hold non-string keys (`defineVar` drops
them); the host could find such a key if an earlier `define` stored it, a
divergence confined to this branch, which no claim reaches — every judged
`set!`/`define` target is a string symbol. -/
def assignVar (σ : Store) (envId : Nat) (sym : Val) (v : Val) :
    Except Err (Val × Store) :=
  match sym with
  | .str s =>
    match findChain σ envId s with
    | .error e => .error e
    | .ok i =>
      match getFrame σ i with
      | none => .error .invalidEnvRef
      | some fr => .ok (.pynone, σ.set i ⟨(s, v) :: fr.table, fr.outer⟩)
  | .list _ => .error .hostTypeError
  | _ => .error .unboundVariable

/-! ## Truthiness, the infix check, and the built-ins -/

/-- Host truthiness, used by the `if` form (line 117): `bool(value)` of the
host — zero of either numeric kind, the empty string, the empty list,
`False` and `None` are falsy; procedures are truthy. -/
def pyTruthy : Val → Bool
  | .int n => n != 0
  | .float q => q != 0
  | .str s => s != ""
  | .list l => !l.isEmpty
  | .bool b => b
  | .pynone => false
  | .closure _ _ _ => true
  | .builtin _ => true

/-- The line-109 test `args[0] == '->'`: host equality of a value against the
string `'->'`, which only a string can pass. -/
def isArrow : Val → Bool
  | .str s => s == "->"
  | _ => false

/-- A numeric operand as the host sees it for arithmetic: ints, floats, and
booleans (an int subclass) coerce; everything else is a TypeError. -/
def toQNum : Val → Option ℚ
  | .int n => some (n : ℚ)
  | .float q => some q
  | .bool b => some (if b then 1 else 0)
  | _ => none

/-- The modelled built-ins: `begin` is `lambda *x: x[-1]`, `div` is
`op.truediv` (true division, always float-valued), `cons` is
`lambda x,y: [x] + y`, `list` is `lambda *x: List(x)`. -/
def applyBuiltin : BOp → List Val → Except Err Val
  | .begin, vs =>
    match vs.getLast? with
    | some v => .ok v
    | none => .error .hostIndexError          -- x[-1] on an empty tuple
  | .div, [a, b] =>
    match toQNum a, toQNum b with
    | some qa, some qb =>
      if qb = 0 then .error .zeroDivision else .ok (.float (qa / qb))
    | _, _ => .error .hostTypeError
  | .div, _ => .error .hostTypeError          -- wrong argument count
  | .cons, [x, y] =>
    match y with
    | .list l => .ok (.list (x :: l))
    | _ => .error .hostTypeError
  | .cons, _ => .error .hostTypeError
  | .list, vs => .ok (.list vs)

/-- `zip(parms, args)` fed into `dict.update` (line 54): positional pairing
truncated to the shorter sequence, later duplicate keys overwriting earlier
ones (the table is built by prepending).  A list parameter is an unhashable
dict key; a non-string hashable parameter stores under a key unreachable by
any Symbol lookup. -/
def bindPairList : List Val → List Val → List (String × Val) →
    Except Err (List (String × Val))
  | [], _, t => .ok t
  | _, [], t => .ok t
  | p :: ps, a :: as, t =>
    match p with
    | .str s => bindPairList ps as ((s, a) :: t)
    | .list _ => .error .hostTypeError
    | _ => bindPairList ps as t

/-- The parameter binding of `Procedure.__call__` (line 64-65): the stored
parameter expression is normally a list of symbols; a string iterates its
characters (host string iteration); anything else is not iterable. -/
def bindParams : Val → List Val → Except Err (List (String × Val))
  | .list ps, args => bindPairList ps args []
  | .str s, args => bindPairList (s.toList.map fun c => .str (String.mk [c])) args []
  | _, _ => .error .hostTypeError

/-- The root-environment table (`standard_env`, lines 17-49) restricted to
the modelled built-ins. -/
def standardEnv : List (String × Val) :=
  [("begin", .builtin .begin), ("div", .builtin .div),
   ("cons", .builtin .cons), ("list", .builtin .list)]

/-- One fresh root environment (`global_env = standard_env()`, line 67):
frame 0, no outer. -/
def initStore : Store :=
  [⟨standardEnv, none⟩]

/-! ## Evaluator (lines 101-131) -/

mutual

/-- `eval(x, env)` (lines 101-131), fuel-indexed.  The internal order is the
source's: symbols are looked up, non-lists self-evaluate, then the list is
unpacked as `op, *args = x` — a ValueError on an empty list — and
`args[0] == '->'` is inspected — an IndexError on a one-element list —
before any special form or call is dispatched. -/
def evalE : Nat → Val → Nat → Store → Except Err (Val × Store)
  | 0, _, _, _ => .error .outOfFuel
  | f + 1, x, envId, σ =>
    match x with
    | .str s =>                               -- variable reference, line 103-104
      match lookupVar σ envId s with
      | .error e => .error e
      | .ok v => .ok (v, σ)
    | .list [] => .error .hostValueError      -- op, *args = [] : ValueError
    | .list [_] => .error .hostIndexError     -- args = [], then args[0]
    | .list (op :: a0 :: rest) =>
      if isArrow a0 then                      -- infix form, lines 109-111:
        evalE f (.list (a0 :: op :: rest)) envId σ  -- swap x[0], x[1]; re-eval
      else
        match op with
        | .str "quote" => .ok (a0, σ)         -- line 113-114: return args[0]
        | .str "if" =>                        -- lines 115-118
          match rest with
          | [conseq, alt] =>
            match evalE f a0 envId σ with
            | .error e => .error e
            | .ok (t, σ') => evalE f (if pyTruthy t then conseq else alt) envId σ'
          | _ => .error .hostValueError       -- (test, conseq, alt) = args
        | .str "define" =>                    -- lines 119-121
          match rest with
          | [exp] =>
            match evalE f exp envId σ with
            | .error e => .error e
            | .ok (v, σ') => defineVar σ' envId a0 v
          | _ => .error .hostValueError       -- (symbol, exp) = args
        | .str "set!" =>                      -- lines 122-124; host assignment
          match rest with                     -- evaluates the right side first
          | [exp] =>
            match evalE f exp envId σ with
            | .error e => .error e
            | .ok (v, σ') => assignVar σ' envId a0 v
          | _ => .error .hostValueError
        | .str "->" =>                        -- lines 125-127: capture env by
          match rest with                     -- reference (the frame index)
          | [body] => .ok (.closure a0 body envId, σ)
          | _ => .error .hostValueError       -- (parms, body) = args
        | _ =>                                -- procedure call, lines 128-131
          match evalE f op envId σ with
          | .error e => .error e
          | .ok (proc, σ1) =>
            match evalArgs f (a0 :: rest) envId σ1 with
            | .error e => .error e
            | .ok (vals, σ2) => applyProc f proc vals σ2
    | v => .ok (v, σ)                         -- constant, lines 105-106

/-- `[eval(arg, env) for arg in args]` (line 130): left to right, threading
the store. -/
def evalArgs : Nat → List Val → Nat → Store → Except Err (List Val × Store)
  | 0, _, _, _ => .error .outOfFuel
  | _ + 1, [], _, σ => .ok ([], σ)
  | f + 1, a :: as, envId, σ =>
    match evalE f a envId σ with
    | .error e => .error e
    | .ok (v, σ') =>
      match evalArgs f as envId σ' with
      | .error e => .error e
      | .ok (vs, σ'') => .ok (v :: vs, σ'')

/-- `proc(*vals)` (line 131): a closure allocates a fresh frame binding its
parameters over its captured environment and evaluates its body there
(`Procedure.__call__`, lines 60-65); a built-in is applied directly; calling
anything else is a host TypeError. -/
def applyProc : Nat → Val → List Val → Store → Except Err (Val × Store)
  | 0, _, _, _ => .error .outOfFuel
  | f + 1, proc, args, σ =>
    match proc with
    | .closure parms body envRef =>
      match bindParams parms args with
      | .error e => .error e
      | .ok tbl => evalE f body σ.length (σ ++ [⟨tbl, some envRef⟩])
    | .builtin b =>
      match applyBuiltin b args with
      | .error e => .error e
      | .ok v => .ok (v, σ)
    | _ => .error .hostTypeError

end

/-- Parse one program and evaluate it in a fresh root environment, as
`main` does (line 157): `print(eval(parse(program)))`. -/
def runProgram (fuel : Nat) (program : String) : Except Err Val :=
  match parse program with
  | .error e => .error e
  | .ok e =>
    match evalE fuel e 0 initStore with
    | .error e => .error e
    | .ok (v, _) => .ok v

end Tlil

namespace Tlil

/-! ## Claim theorems -/

/-- C1, counterexample.  The claim says `(if 0 a b)` and `(if (quote ()) a b)`
take the consequent branch because zero and the empty list are truthy; in
fact both programs evaluate to the alternative: the `if` form uses host
truthiness, under which numeric zero and the empty list are falsy. -/
theorem C1_counterexample :
    runProgram 64 "(if 0 1 2)" = .ok (.int 2) ∧
    runProgram 64 "(if (quote ()) 1 2)" = .ok (.int 2) :=
  ⟨rfl, rfl⟩

/-- C1, amended.  For an `if` form whose test is not the infix arrow symbol,
the evaluator evaluates the test and then takes the consequent exactly when
the test's value is truthy under host truthiness (`pyTruthy`), the
alternative otherwise; zero of either numeric kind, the empty list, the
empty string, `False` and `None` select the alternative. -/
theorem C1_if_truthiness (fuel : Nat) (test conseq alt : Val) (envId : Nat)
    (σ : Store) (h : isArrow test = false) :
    evalE (fuel + 1) (.list [.str "if", test, conseq, alt]) envId σ =
      (evalE fuel test envId σ).bind
        (fun r => evalE fuel (if pyTruthy r.1 then conseq else alt) envId r.2) := by
  simp only [evalE, h, Bool.false_eq_true, if_false]
  cases hres : evalE fuel test envId σ with
  | error e => rfl
  | ok r => rfl

/-- C1, witness: at the concrete falsy test `0`, the `if` form with
consequent `5` and alternative `6` returns `6`. -/
theorem C1_if_truthiness_witness :
    evalE 2 (.list [.str "if", .int 0, .int 5, .int 6]) 0 initStore =
      .ok (.int 6, initStore) := by
  rw [C1_if_truthiness 1 (.int 0) (.int 5) (.int 6) 0 initStore rfl]
  rfl

/-- C2.  The claim's own example program
`(begin (define x 1) (define f (-> () x)) (set! x 2) (f))` does not return
2: the zero-operand call `(f)` is a one-element list, and the evaluator
inspects `args[0]` before dispatching, raising a host IndexError before the
closure is ever invoked.  The capture-by-reference semantics the claim
describes is the evident intent (see `mutation_visible_with_one_arg`); the
unguarded operand inspection added for the infix form breaks it for
zero-argument calls. -/
theorem C2_mutation_program_crashes :
    runProgram 64 "(begin (define x 1) (define f (-> () x)) (set! x 2) (f))" =
      .error .hostIndexError :=
  rfl

/-- The same program with a one-parameter closure and a one-argument call
does observe the `set!` performed after the closure's creation: environments
are captured by reference. -/
theorem mutation_visible_with_one_arg :
    runProgram 64 "(begin (define x 1) (define f (-> (y) x)) (set! x 2) (f 0))" =
      .ok (.int 2) :=
  rfl

/-- C3.  Evaluating any one-element list — a procedure call with zero
operands — fails with a host IndexError while inspecting the operand
position (`args[0]` with `args` empty), in every environment and store,
before the operator is even evaluated: no zero-argument call can succeed. -/
theorem C3_zero_operand_call (fuel : Nat) (e : Val) (envId : Nat) (σ : Store) :
    evalE (fuel + 1) (.list [e]) envId σ = .error .hostIndexError :=
  rfl

/-- C4, counterexample.  The claim says `set!` on a name bound in no scope
of the chain always fails with the unbound-variable error; the name `->`
refutes it: it is bound in no frame of the fresh root environment, yet
`(set! -> 7)` does not fail — the operand inspection of line 109 sees the
arrow in second position, swaps it to the front, and the form becomes the
procedure literal `(-> set! 7)`, returning a closure without ever
consulting the chain. -/
theorem C4_set_arrow_counterexample :
    findChain initStore 0 "->" = .error .unboundVariable ∧
    evalE 2 (.list [.str "set!", .str "->", .int 7]) 0 initStore =
      .ok (.closure (.str "set!") (.int 7) 0, initStore) :=
  ⟨rfl, rfl⟩

/-- C4, amended.  If a name is bound in no frame of the chain starting at
`envId` (so `find` exhausts the chain at the root, the unbound-variable
failure), then evaluating the name as a Symbol fails with that error kind,
and so does `set!` on the name — provided the name is not the arrow symbol
`->`, whose `set!` form is hijacked by the infix rewrite of line 109 —
after the `set!` right-hand side has been evaluated; the same single crash
site, the chain walk of `Env.find` falling off the root, produces both
failures. -/
theorem C4_unbound_lookup_and_assign (fuel envId : Nat) (σ σ' : Store)
    (name : String) (exp v : Val)
    (h1 : findChain σ envId name = .error .unboundVariable)
    (hv : evalE fuel exp envId σ = .ok (v, σ'))
    (h2 : findChain σ' envId name = .error .unboundVariable)
    (hn : name ≠ "->") :
    evalE (fuel + 1) (.str name) envId σ = .error .unboundVariable ∧
    evalE (fuel + 1) (.list [.str "set!", .str name, exp]) envId σ =
      .error .unboundVariable := by
  have hA : isArrow (Val.str name) = false := by
    simp only [isArrow, beq_eq_false_iff_ne, ne_eq]
    exact hn
  constructor
  · simp only [evalE, lookupVar, h1]
  · simp only [evalE, hA, Bool.false_eq_true, if_false, hv, assignVar, h2]

/-- C4, witness: in the fresh root environment, the never-bound name `zzz`
fails with the unbound-variable error both as a lookup and as the target of
`set!`. -/
theorem C4_unbound_witness :
    evalE 2 (.str "zzz") 0 initStore = .error .unboundVariable ∧
    evalE 2 (.list [.str "set!", .str "zzz", .int 7]) 0 initStore =
      .error .unboundVariable :=
  C4_unbound_lookup_and_assign 1 0 initStore initStore "zzz" (.int 7) (.int 7)
    rfl rfl rfl (by decide)

/-- C5, counterexample.  The claim says a closure invocation with the wrong
argument count fails with an arity error; in fact `((-> (a) a) 1 2)` — one
parameter, two arguments — succeeds and returns 1: the extra argument is
silently dropped. -/
theorem C5_counterexample :
    runProgram 64 "((-> (a) a) 1 2)" = .ok (.int 1) :=
  rfl

/-- C5, amended.  Closure invocation performs no arity check: the parameter
table is the positional zip of parameters and arguments truncated to the
shorter list (excess arguments ignored, missing parameters simply not
bound), so both the two-arguments-one-parameter call and the
one-argument-two-parameters call succeed. -/
theorem C5_zip_truncation :
    (∀ (ps vs : List Val) (t : List (String × Val)),
      bindPairList ps vs t =
        bindPairList (ps.take vs.length) (vs.take ps.length) t) ∧
    runProgram 64 "((-> (a b) a) 1)" = .ok (.int 1) := by
  constructor
  · intro ps
    induction ps with
    | nil => intro vs t; cases vs <;> rfl
    | cons p ps ih =>
      intro vs t
      cases vs with
      | nil => rfl
      | cons v vs =>
        cases p <;> simp only [bindPairList, List.take, List.length_cons, ih]
  · rfl

/-- C6.  Parsing the unbalanced input does fail, but not with the reader's
explicit unexpected-end-of-input error: the list loop peeks at `tokens[0]`
on an exhausted token list and crashes with a host IndexError.  The
explicit unexpected-end-of-input raise fires only when a whole
(sub)expression read starts with no tokens left, as on empty input. -/
theorem C6_unbalanced_input_host_index_error :
    parse "(+ 1 2" = .error .hostIndexError ∧
    parse "" = .error .unexpectedEOF :=
  ⟨rfl, rfl⟩

/-- C7.  `(begin (define x 1) ((-> (x) x) 2))` evaluates to 2 in a fresh
root environment: the closure parameter `x` is bound in a fresh innermost
frame whose outer link is the captured environment, shadowing the outer
`define` of `x`. -/
theorem C7_parameter_shadowing :
    runProgram 64 "(begin (define x 1) ((-> (x) x) 2))" = .ok (.int 2) :=
  rfl

/-- C8.  For any two integer operands with a nonzero divisor, the built-in
`div` performs true division: the result is a float (never an int) whose
value is the exact quotient — no integer truncation. -/
theorem C8_div_true_division (a b : ℤ) (h : b ≠ 0) :
    applyBuiltin .div [.int a, .int b] = .ok (.float ((a : ℚ) / (b : ℚ))) := by
  simp only [applyBuiltin, toQNum]
  rw [if_neg (by exact_mod_cast h)]

/-- C8, witness: dividing the integer 1 by the integer 2 yields the float
one half — 0.5, not the truncated integer 0. -/
theorem C8_div_witness :
    (2 : ℤ) ≠ 0 ∧
    applyBuiltin .div [.int 1, .int 2] =
      .ok (.float (((1 : ℤ) : ℚ) / ((2 : ℤ) : ℚ))) ∧
    ((1 : ℤ) : ℚ) / ((2 : ℤ) : ℚ) = 1 / 2 :=
  ⟨by decide, C8_div_true_division 1 2 (by decide), by norm_num⟩

/-- C9.  For every list whose second element is the symbol `->`, evaluation
proceeds exactly as evaluation of the list with its first two elements
swapped: the infix form `(P -> B ...)` is evaluated as the prefix form
`(-> P B ...)` (one fuel step accounts for the re-dispatch; the in-place
mutation of the host list object is the aliasing effect this pure embedding
realizes by evaluating the swapped expression). -/
theorem C9_infix_arrow_swap (fuel : Nat) (x0 : Val) (rest : List Val)
    (envId : Nat) (σ : Store) :
    evalE (fuel + 1) (.list (x0 :: .str "->" :: rest)) envId σ =
    evalE fuel (.list (.str "->" :: x0 :: rest)) envId σ :=
  rfl

/-- C10.  The text `()` parses to the empty List expression, yet evaluating
the empty List in any environment and store fails: unpacking the operator
position of an empty list raises a host ValueError.  The empty list is
readable but never evaluable. -/
theorem C10_empty_list_parses_never_evaluates (fuel envId : Nat) (σ : Store) :
    parse "()" = .ok (.list []) ∧
    evalE (fuel + 1) (.list []) envId σ = .error .hostValueError :=
  ⟨rfl, rfl⟩

end Tlil
